import Mathlib

/-!
# Verification of `target_snowflake.batch_encoder_csv`

Shallow embedding of `src/target_snowflake/batch_encoder_csv.py`:
the `DecimalEncoder` JSON encoder, `CSVBatcher._record_to_csv_line`
and `CSVBatcher.get_batches`, together with the record-flattening and
chunking collaborators they call.

Python's dynamically typed scalar values are modelled as a closed
inductive `Value` (null, boolean, integer, arbitrary-precision decimal,
text, object, array); a record is an association list of column name to
value, which is how the flattened Python `dict` behaves under the
`column in flatten_record` / `flatten_record[column]` operations used by
the source.  A `Decimal` is carried as the exact string `str(o)` prints,
which is what `DecimalEncoder.default` returns for it.
-/

namespace TargetSnowflake

/-- A Python scalar / JSON value as it occurs in a record handled by the
batcher.  `decimal s` carries the exact decimal text that Python's
`str(decimal.Decimal(...))` produces for the value. -/
inductive Value where
  | null
  | bool (b : Bool)
  | int (n : Int)
  | decimal (digits : String)
  | str (s : String)
  | obj (fields : List (String × Value))
  | arr (elems : List Value)
deriving Repr

/-- A record (or flattened record): the association list underlying the
Python `dict` of column name to value. -/
abbrev Record := List (String × Value)

/-- The JSON schema of a stream, restricted to what the source reads from
it: `schema["properties"].items()`, an insertion-ordered association of
column names to (unused) metadata. -/
structure Schema where
  properties : List (String × Value)
deriving Repr

/-- A Python decimal text denotes zero iff its mantissa has no nonzero
digit (`Decimal("0.0") == 0` is true in Python). -/
def decimalIsZero (s : String) : Bool :=
  (s.data.takeWhile (fun c => !(c == 'e' || c == 'E'))).all
    (fun c => c == '0' || c == '.' || c == '-' || c == '+')

/-- Python's `v == 0` test as used in `_record_to_csv_line`:
`0 == 0`, `0.0 == 0`, `Decimal("0") == 0` and `False == 0` are all true;
strings, `None` and containers never compare equal to `0`. -/
def pyEqZero : Value → Bool
  | Value.null => false
  | Value.bool b => !b
  | Value.int n => n == 0
  | Value.decimal d => decimalIsZero d
  | Value.str _ => false
  | Value.obj _ => false
  | Value.arr _ => false

/-- Python truthiness of a value (`bool(v)`), as used by the
`or flatten_record[column]` half of the presence test. -/
def pyTruthy : Value → Bool
  | Value.null => false
  | Value.bool b => b
  | Value.int n => !(n == 0)
  | Value.decimal d => !(decimalIsZero d)
  | Value.str s => !(s == "")
  | Value.obj fields => !fields.isEmpty
  | Value.arr elems => !elems.isEmpty

/-- Lower-case hex digit of `n % 16`. -/
def hexDigit (n : Nat) : Char :=
  if n % 16 < 10 then Char.ofNat (48 + n % 16) else Char.ofNat (87 + n % 16)

/-- Four lower-case hex digits, as in a JSON `\uXXXX` escape. -/
def hex4 (n : Nat) : String :=
  String.mk [hexDigit (n / 4096), hexDigit (n / 256), hexDigit (n / 16), hexDigit n]

/-- How `json.dumps(..., ensure_ascii=False)` escapes one character of a
JSON string: quote, backslash and control characters are escaped, every
other character (ASCII or not) is emitted verbatim. -/
def jsonEscapeChar (c : Char) : String :=
  if c = '"' then "\\\""
  else if c = '\\' then "\\\\"
  else if c = '\n' then "\\n"
  else if c = '\r' then "\\r"
  else if c = '\t' then "\\t"
  else if c.toNat == 8 then "\\b"
  else if c.toNat == 12 then "\\f"
  else if c.toNat < 32 then "\\u" ++ hex4 c.toNat
  else String.singleton c

/-- Body of a JSON string literal for `s`. -/
def jsonEscape (s : String) : String :=
  String.join (s.data.map jsonEscapeChar)

mutual

/-- `json.dumps(v, ensure_ascii=False, cls=DecimalEncoder)` from the
source.  `DecimalEncoder.default` (lines 21-25) turns a `Decimal` into
`str(o)`, which `json.dumps` then serialises as a JSON *string*, i.e.
wrapped in double quotes.  Containers use Python's default separators
`", "` and `": "`. -/
def jsonDumps : Value → String
  | Value.null => "null"
  | Value.bool true => "true"
  | Value.bool false => "false"
  | Value.int n => toString n
  | Value.decimal d => "\"" ++ d ++ "\""
  | Value.str s => "\"" ++ jsonEscape s ++ "\""
  | Value.obj fields => "\x7b" ++ jsonDumpsFields fields ++ "\x7d"
  | Value.arr elems => "[" ++ jsonDumpsElems elems ++ "]"

/-- Serialisation of the members of a JSON object. -/
def jsonDumpsFields : List (String × Value) → String
  | [] => ""
  | [(k, v)] => "\"" ++ jsonEscape k ++ "\": " ++ jsonDumps v
  | (k, v) :: p :: rest =>
      "\"" ++ jsonEscape k ++ "\": " ++ jsonDumps v ++ ", " ++ jsonDumpsFields (p :: rest)

/-- Serialisation of the elements of a JSON array. -/
def jsonDumpsElems : List Value → String
  | [] => ""
  | [v] => jsonDumps v
  | v :: w :: rest => jsonDumps v ++ ", " ++ jsonDumpsElems (w :: rest)

end

/-- Modelled from the spec: `target_snowflake.flattening.flatten_record`
is imported by the source but its module is not part of the sources at
hand.  Spec 4.1: at each nesting level up to the maximum, a nested
mapping's keys are merged into the parent namespace joining parent and
child names with `__`; beyond the maximum level (and for `maxDepth = 0`)
the nested value is kept intact, to be serialised whole; sequences are
opaque scalars and are never flattened. -/
def flattenItem : Nat → String → Value → List (String × Value)
  | Nat.succ lvl, key, Value.obj fields =>
      (fields.map (fun p => flattenItem lvl (key ++ "__" ++ p.1) p.2)).flatten
  | _, key, v => [(key, v)]

/-- Modelled from the spec: `flatten_record(record, schema, max_level)`.
Flattens every top-level item with `flattenItem`; per spec 4.1 the
described flattening depends only on the nesting depth, so the `schema`
argument does not influence the result. -/
def flatten_record (record : Record) (schema : Schema) (max_level : Nat) : Record :=
  let _ := schema
  (record.map (fun p => flattenItem max_level p.1 p.2)).flatten

/-- One entry of the list comprehension in `_record_to_csv_line`
(lines 60-64): `json.dumps(flatten_record[column], ensure_ascii=False,
cls=DecimalEncoder) if column in flatten_record and
(flatten_record[column] == 0 or flatten_record[column]) else ''`. -/
def encodeField (flat : Record) (column : String) : String :=
  match flat.lookup column with
  | some v => if pyEqZero v || pyTruthy v then jsonDumps v else ""
  | none => ""

/-- Python's `','.join(tokens)`. -/
def commaJoin : List String → String
  | [] => ""
  | [t] => t
  | t :: u :: rest => t ++ "," ++ commaJoin (u :: rest)

/-- `CSVBatcher._record_to_csv_line` (lines 43-65): flatten the record,
then join one encoded token per schema column, iterating
`schema["properties"].items()` in schema order. -/
def record_to_csv_line (record : Record) (schema : Schema) (data_flattening_max_level : Nat) :
    String :=
  let flat := flatten_record record schema data_flattening_max_level
  commaJoin (schema.properties.map (fun p => encodeField flat p.1))

/-- Modelled from the spec: `singer_sdk.batch.lazy_chunked_generator`,
the external chunking collaborator called by `get_batches` (spec 4.4):
it greedily slices up to `n` records off the stream and yields the slice
as a chunk, yielding nothing once a slice comes back empty, so the last
chunk may be partial, an empty stream yields no chunks, and a slice
size of `0` yields no chunks at all. -/
def lazy_chunked_generator : List α → Nat → List (List α)
  | _, 0 => []
  | [], _ + 1 => []
  | r :: rs, m + 1 => (r :: rs.take m) :: lazy_chunked_generator (rs.drop m) (m + 1)
termination_by l => l.length
decreasing_by
  simp only [List.length_drop, List.length_cons]
  omega

/-- The state of a `CSVBatcher` (lines 27-41) as read by `get_batches`:
`tap_name`, `stream_name`, the schema, the flattening depth, and the two
fields of `batch_config` it consults — `batch_config.batch_size` and
`batch_config.storage.prefix` (an optional string, replaced by `""` via
`or ""` when unset). -/
structure CSVBatcher where
  tap_name : String
  stream_name : String
  batch_size : Nat
  storage_prefix_ : Option String
  schema : Schema
  data_flattening_max_level : Nat

/-- What one iteration of the `get_batches` loop produces: the logical
filename passed to the storage collaborator, the byte strings streamed
through the gzip writer (one per record: the CSV line plus `'\n'`), and
the URL obtained from `fs.geturl(filename)`. -/
structure ChunkFile where
  filename : String
  lines : List String
  url : String
deriving Repr

/-- `CSVBatcher.get_batches` (lines 67-106), value level.  The once-per-call
`uuid4()` token and the storage collaborator's `geturl` map are injected as
parameters; `sync_id` and the per-chunk filename are built exactly as in
the source, with `enumerate(..., start=1)` numbering the chunks. -/
def get_batches (b : CSVBatcher) (sync_uuid : String) (geturl : String → String)
    (records : List Record) : List ChunkFile :=
  let sync_id := b.tap_name ++ "--" ++ b.stream_name ++ "-" ++ sync_uuid
  let p := b.storage_prefix_.getD ""
  (lazy_chunked_generator records b.batch_size).enum.map (fun ic =>
    let filename := p ++ sync_id ++ "-" ++ toString (ic.1 + 1) ++ ".csv.gz"
    { filename := filename
      lines := ic.2.map (fun record =>
        record_to_csv_line record b.schema b.data_flattening_max_level ++ "\n")
      url := geturl filename })

/-- The manifests yielded by `get_batches`: one `[file_url]` per chunk. -/
def manifests (b : CSVBatcher) (sync_uuid : String) (geturl : String → String)
    (records : List Record) : List (List String) :=
  (get_batches b sync_uuid geturl records).map (fun c => [c.url])

/-! ## Resource-event semantics of one loop iteration

`get_batches` writes each chunk inside
`with self.batch_config.storage.fs(create=True) as fs:` wrapping
`with fs.open(filename, "wb") as f, gzip.GzipFile(fileobj=f, mode="wb") as gz:`
followed by `file_url = fs.geturl(filename)`.  To reason about the
close-on-every-exit-path guarantee we give the same code a second,
trace-level semantics: a computation is a list of resource events plus
an outcome, a `with` block is a combinator that runs its body and always
appends the close event (success or failure, as Python's `with` does),
and per-record flattening/encoding/writing failures are represented by
letting the line producer return an error. -/

/-- A resource event of one `get_batches` loop iteration. -/
inductive Ev where
  | openFS
  | closeFS
  | openFile (filename : String)
  | closeFile
  | openGz
  | closeGz
  | writeGz (bytes : String)
  | getUrl (filename : String)
deriving Repr, DecidableEq

/-- A traced computation: the resource events it performs, and either a
result or the error it raises. -/
abbrev TraceM (α : Type) := List Ev × Except String α

/-- Python `with` semantics over traces: perform the open event, run the
body, and perform the close event on every exit path — after the body
whether it succeeded or raised — before the outcome propagates. -/
def withEv (o c : Ev) (body : TraceM α) : TraceM α :=
  (o :: body.1 ++ [c], body.2)

/-- Sequencing of traced computations: the continuation runs only when
the first computation succeeded; an error short-circuits. -/
def andThen (m : TraceM α) (k : α → TraceM β) : TraceM β :=
  match m.2 with
  | Except.error e => (m.1, Except.error e)
  | Except.ok a => (m.1 ++ (k a).1, (k a).2)

/-- The `for record in chunk` loop body (lines 102-104): produce the CSV
line for each record — `enc` may raise, modelling a flattening or
encoding error — and write `bytes(csv_line + '\n', 'UTF-8')` to the gzip
writer.  The first error aborts the loop and propagates. -/
def writeLines (enc : Record → Except String String) : List Record → TraceM Unit
  | [] => ([], Except.ok ())
  | r :: rs =>
    match enc r with
    | Except.error e => ([], Except.error e)
    | Except.ok line =>
        andThen ([Ev.writeGz (line ++ "\n")], Except.ok ()) (fun _ => writeLines enc rs)

/-- One iteration of the `get_batches` loop (lines 90-105) at trace
level: open the filesystem scope, inside it open the file and the gzip
writer (one combined `with`, so the gzip writer is the inner resource),
stream the chunk through `writeLines`, and only after the inner `with`
block has closed both writers ask `fs.geturl(filename)` for the URL. -/
def write_one_chunk (filename : String) (geturl : String → String)
    (enc : Record → Except String String) (chunk : List Record) : TraceM String :=
  withEv Ev.openFS Ev.closeFS
    (andThen
      (withEv (Ev.openFile filename) Ev.closeFile
        (withEv Ev.openGz Ev.closeGz (writeLines enc chunk)))
      (fun _ => ([Ev.getUrl filename], Except.ok (geturl filename))))

/-! ## Concrete fixtures -/

/-- A one-column schema whose single column is `a`. -/
def schemaA : Schema := ⟨[("a", Value.null)]⟩

/-- A two-column schema with columns `a`, `b` in that order. -/
def schemaAB : Schema := ⟨[("a", Value.null), ("b", Value.null)]⟩

/-- A batcher configured with batch size 2 over `schemaA`. -/
def exampleBatcher : CSVBatcher := ⟨"tap", "stream", 2, none, schemaA, 0⟩

/-- A batcher configured with batch size 0. -/
def zeroBatcher : CSVBatcher := ⟨"tap", "stream", 0, none, schemaA, 0⟩

/-- The identity URL resolver standing in for `fs.geturl`. -/
def idUrl : String → String := fun s => s

/-- A three-record stream over `schemaA`. -/
def recs3 : List Record := [[("a", Value.int 1)], [("a", Value.int 2)], [("a", Value.int 3)]]

/-- A line producer that encodes against `schemaA` and never fails. -/
def encOk : Record → Except String String :=
  fun record => Except.ok (record_to_csv_line record schemaA 0)

/-- A line producer that always raises, modelling a flattening or
encoding error on the first record. -/
def encFail : Record → Except String String :=
  fun _ => Except.error "unsupported type"

/-! ## Helper lemmas -/

/-- Concatenating the chunks of a positive-size chunking restores the
input stream. -/
theorem lcg_flatten (m : Nat) : ∀ l : List α,
    (lazy_chunked_generator l (m + 1)).flatten = l
  | [] => by simp [lazy_chunked_generator]
  | r :: rs => by
      rw [lazy_chunked_generator]
      simp only [List.flatten_cons, List.cons_append]
      rw [lcg_flatten m (rs.drop m), List.take_append_drop]
termination_by l => l.length
decreasing_by
  simp only [List.length_drop, List.length_cons]
  omega

/-- A positive-size chunking of `l` has `⌈l.length / size⌉` chunks,
written with truncating arithmetic. -/
theorem lcg_length (m : Nat) : ∀ l : List α,
    (lazy_chunked_generator l (m + 1)).length = (l.length + m) / (m + 1)
  | [] => by
      simp only [lazy_chunked_generator, List.length_nil, List.length_cons, Nat.zero_add]
      exact (Nat.div_eq_of_lt (by omega)).symm
  | r :: rs => by
      rw [lazy_chunked_generator]
      simp only [List.length_cons]
      rw [lcg_length m (rs.drop m)]
      simp only [List.length_drop]
      rcases Nat.le_total m rs.length with h | h
      · have h1 : rs.length - m + m = rs.length := Nat.sub_add_cancel h
        have h2 : rs.length + 1 + m = rs.length + (m + 1) := by omega
        rw [h1, h2, Nat.add_div_right _ (Nat.succ_pos m)]
      · have h1 : rs.length - m = 0 := Nat.sub_eq_zero_of_le h
        have h2 : rs.length + 1 + m = (m + 1) + rs.length := by omega
        rw [h1, Nat.zero_add, Nat.div_eq_of_lt (by omega), h2,
          Nat.add_div_left _ (Nat.succ_pos m), Nat.div_eq_of_lt (by omega)]
termination_by l => l.length
decreasing_by
  simp only [List.length_drop, List.length_cons]
  omega

/-- Mapping a function of the entry alone over an enumerated list drops
the indices. -/
theorem enumFrom_map_snd (F : α → β) : ∀ (n : Nat) (l : List α),
    (List.enumFrom n l).map (fun ic => F ic.2) = l.map F
  | _, [] => rfl
  | n, a :: l => congrArg (List.cons (F a)) (enumFrom_map_snd F (n + 1) l)

/-- The write loop emits only `writeGz` events, whatever the outcome. -/
theorem writeLines_shape (enc : Record → Except String String) : ∀ chunk : List Record,
    ∃ ws : List String, (writeLines enc chunk).1 = ws.map Ev.writeGz
  | [] => ⟨[], rfl⟩
  | r :: rs => by
      cases henc : enc r with
      | error e => exact ⟨[], by simp [writeLines, henc]⟩
      | ok line =>
          obtain ⟨ws, hws⟩ := writeLines_shape enc rs
          exact ⟨(line ++ "\n") :: ws, by simp [writeLines, henc, andThen, hws]⟩

/-- Joining comma-free tokens with `','.join` puts exactly one comma
between adjacent tokens: `n` tokens yield `n - 1` commas. -/
theorem commaJoin_comma_count : ∀ ts : List String,
    (∀ t ∈ ts, t.data.count ',' = 0) →
    (commaJoin ts).data.count ',' = ts.length - 1
  | [], _ => rfl
  | [t], h => by
      simpa [commaJoin] using h t (by simp)
  | t :: u :: rest, h => by
      have ht : t.data.count ',' = 0 := h t (by simp)
      have hrest := commaJoin_comma_count (u :: rest) (fun x hx => h x (by simp [hx]))
      simp only [commaJoin, String.data_append, List.count_append, ht, hrest]
      simp [List.count_cons]
      omega

/-! ## Claims -/

/-- C1: for every finite record stream and every positive batch size,
`get_batches` yields exactly `⌈N / b⌉` manifests, one per chunk whose
lines encode exactly that chunk's records in order; the chunks
concatenate back to the input stream, so no record is dropped,
duplicated or reordered; and an empty input stream yields zero
manifests. -/
theorem get_batches_partitions_stream (b : CSVBatcher) (sync_uuid : String)
    (geturl : String → String) (records : List Record) (h : 0 < b.batch_size) :
    (manifests b sync_uuid geturl records).length = records.length ⌈/⌉ b.batch_size ∧
    (get_batches b sync_uuid geturl records).map ChunkFile.lines =
      (lazy_chunked_generator records b.batch_size).map
        (fun chunk => chunk.map (fun record =>
          record_to_csv_line record b.schema b.data_flattening_max_level ++ "\n")) ∧
    (lazy_chunked_generator records b.batch_size).flatten = records ∧
    (records = [] → manifests b sync_uuid geturl records = []) := by
  obtain ⟨m, hm⟩ : ∃ m, b.batch_size = m + 1 := ⟨b.batch_size - 1, by omega⟩
  refine ⟨?_, ?_, ?_, ?_⟩
  · simp only [manifests, get_batches, List.length_map, List.enum_length]
    rw [hm, lcg_length m records, Nat.ceilDiv_eq_add_pred_div]
    congr 1
  · simp only [get_batches, List.map_map, List.enum]
    exact enumFrom_map_snd _ 0 _
  · rw [hm]
    exact lcg_flatten m records
  · intro he
    subst he
    simp [manifests, get_batches, hm, lazy_chunked_generator]

/-- C1 witness: a stream of three records with batch size 2 yields
`⌈3 / 2⌉ = 2` manifests, the chunk contents concatenate to the stream,
and the lines are the encoded records chunk by chunk. -/
theorem get_batches_partitions_stream_witness :
    0 < exampleBatcher.batch_size ∧
    ((manifests exampleBatcher "U" idUrl recs3).length = recs3.length ⌈/⌉ exampleBatcher.batch_size ∧
    (get_batches exampleBatcher "U" idUrl recs3).map ChunkFile.lines =
      (lazy_chunked_generator recs3 exampleBatcher.batch_size).map
        (fun chunk => chunk.map (fun record =>
          record_to_csv_line record exampleBatcher.schema
            exampleBatcher.data_flattening_max_level ++ "\n")) ∧
    (lazy_chunked_generator recs3 exampleBatcher.batch_size).flatten = recs3 ∧
    (recs3 = [] → manifests exampleBatcher "U" idUrl recs3 = [])) :=
  ⟨by decide, get_batches_partitions_stream exampleBatcher "U" idUrl recs3 (by decide)⟩

/-- C2 (amended): the encoded line is the comma-join of exactly one
token per schema column, whichever columns the flattened record
contains; when no token itself contains a comma the line has exactly
`N - 1` commas and hence splits on commas into exactly `N` fields.  (As
stated the claim fails: the encoder does not escape commas inside
tokens, so a token such as the JSON string `"x,y"` makes the line split
into more than `N` fields.) -/
theorem record_to_csv_line_field_count (record : Record) (schema : Schema) (lvl : Nat)
    (h : ∀ t ∈ schema.properties.map (fun p =>
      encodeField (flatten_record record schema lvl) p.1), t.data.count ',' = 0) :
    record_to_csv_line record schema lvl =
      commaJoin (schema.properties.map (fun p =>
        encodeField (flatten_record record schema lvl) p.1)) ∧
    (schema.properties.map (fun p =>
      encodeField (flatten_record record schema lvl) p.1)).length =
      schema.properties.length ∧
    (record_to_csv_line record schema lvl).data.count ',' = schema.properties.length - 1 := by
  refine ⟨rfl, List.length_map _ _, ?_⟩
  have := commaJoin_comma_count
    (schema.properties.map (fun p => encodeField (flatten_record record schema lvl) p.1)) h
  simpa [record_to_csv_line, List.length_map] using this

/-- C2 witness: a record holding `5` in column `a` of the two-column
schema encodes to `"5,"`, whose comma-free tokens give one comma for
two columns. -/
theorem record_to_csv_line_field_count_witness :
    record_to_csv_line [("a", Value.int 5)] schemaAB 0 =
      commaJoin (schemaAB.properties.map (fun p =>
        encodeField (flatten_record [("a", Value.int 5)] schemaAB 0) p.1)) ∧
    (schemaAB.properties.map (fun p =>
      encodeField (flatten_record [("a", Value.int 5)] schemaAB 0) p.1)).length =
      schemaAB.properties.length ∧
    (record_to_csv_line [("a", Value.int 5)] schemaAB 0).data.count ',' =
      schemaAB.properties.length - 1 :=
  record_to_csv_line_field_count [("a", Value.int 5)] schemaAB 0 (by decide)

/-- C2 counterexample: with the one-column schema, the record
`{"a": "x,y"}` encodes to the five-character line `"x,y"` containing a
comma, so splitting the line on commas yields two fields, not one. -/
theorem record_to_csv_line_comma_counterexample :
    record_to_csv_line [("a", Value.str "x,y")] schemaA 0 = "\"x,y\"" ∧
    (record_to_csv_line [("a", Value.str "x,y")] schemaA 0).data.count ',' = 1 ∧
    schemaA.properties.length = 1 := by decide

/-- C3: zero encodes as the literal token `0` and is distinguishable
from null or absence: `{"a": 0}` over columns `[a]` encodes to `"0"`,
and `{"a": 1, "b": null}` over columns `[a, b]` encodes to `"1,"`. -/
theorem zero_vs_null_encoding :
    record_to_csv_line [("a", Value.int 0)] schemaA 0 = "0" ∧
    record_to_csv_line [("a", Value.int 1), ("b", Value.null)] schemaAB 0 = "1," := by
  decide

/-- C4 (amended): the falsy-but-present scalars `0`, `0.0` (a decimal
zero) and `False` are encoded as non-empty tokens, but a present empty
string is NOT: `value == 0 or value` is false for `""`, so an empty
string is encoded as an empty field exactly like an absent or null
column. -/
theorem falsy_present_encoding :
    record_to_csv_line [("a", Value.int 0)] schemaA 0 = "0" ∧
    record_to_csv_line [("a", Value.decimal "0.0")] schemaA 0 = "\"0.0\"" ∧
    record_to_csv_line [("a", Value.bool false)] schemaA 0 = "false" ∧
    record_to_csv_line [("a", Value.str "")] schemaA 0 = "" := by
  decide

/-- C4 counterexample: a column present with the empty string encodes
to the same empty field as a null column and as an absent column, so
the empty string IS treated as absent, contrary to the claim. -/
theorem empty_string_treated_as_absent :
    record_to_csv_line [("a", Value.str "")] schemaA 0 = "" ∧
    record_to_csv_line [("a", Value.null)] schemaA 0 = "" ∧
    record_to_csv_line ([] : Record) schemaA 0 = "" := by
  decide

/-- C5 (amended): a decimal value is rendered from its exact decimal
text — no binary float round trip, no exponential form, no truncation —
but `DecimalEncoder.default` returns `str(o)`, a Python string, which
`json.dumps` serialises as a JSON string: the digit sequence is emitted
verbatim but wrapped in double quotes. -/
theorem decimal_exact_digits_quoted (d : String) :
    record_to_csv_line [("a", Value.decimal d)] schemaA 0 = "\"" ++ d ++ "\"" := by
  have hcond : (pyEqZero (Value.decimal d) || pyTruthy (Value.decimal d)) = true := by
    simp [pyEqZero, pyTruthy]
  simp [record_to_csv_line, flatten_record, flattenItem, schemaA, encodeField,
    List.lookup, hcond, jsonDumps, commaJoin]

/-- C5 counterexample: the decimal `12345678901234567890.123456789`
encodes with surrounding double quotes, not as the bare digit
sequence the claim requires. -/
theorem decimal_quoted_counterexample :
    record_to_csv_line [("a", Value.decimal "12345678901234567890.123456789")] schemaA 0 =
      "\"12345678901234567890.123456789\"" ∧
    record_to_csv_line [("a", Value.decimal "12345678901234567890.123456789")] schemaA 0 ≠
      "12345678901234567890.123456789" := by
  decide

/-- C6: the fields of an encoded line follow the schema's declared
column order — the encoder maps over `schema["properties"].items()` and
looks each column up in the flattened record — so two records whose
flattenings agree as lookup functions produce the same line no matter
how their own keys are ordered. -/
theorem line_depends_only_on_flat_lookup (schema : Schema) (lvl : Nat) (r1 r2 : Record)
    (h : ∀ c : String, (flatten_record r1 schema lvl).lookup c =
      (flatten_record r2 schema lvl).lookup c) :
    record_to_csv_line r1 schema lvl = record_to_csv_line r2 schema lvl ∧
    record_to_csv_line r1 schema lvl =
      commaJoin (schema.properties.map (fun p =>
        encodeField (flatten_record r1 schema lvl) p.1)) := by
  refine ⟨?_, rfl⟩
  show commaJoin (schema.properties.map (fun p =>
      encodeField (flatten_record r1 schema lvl) p.1)) =
    commaJoin (schema.properties.map (fun p =>
      encodeField (flatten_record r2 schema lvl) p.1))
  congr 1
  apply List.map_congr_left
  intro p _
  unfold encodeField
  rw [h p.1]

/-- C6 witness: the records `[a ↦ 1, b ↦ 2]` and `[b ↦ 2, a ↦ 1]`,
flat and equal as lookup functions but oppositely ordered, encode to
the same line over the two-column schema. -/
theorem line_depends_only_on_flat_lookup_witness :
    record_to_csv_line [("a", Value.int 1), ("b", Value.int 2)] schemaAB 0 =
      record_to_csv_line [("b", Value.int 2), ("a", Value.int 1)] schemaAB 0 ∧
    record_to_csv_line [("a", Value.int 1), ("b", Value.int 2)] schemaAB 0 =
      commaJoin (schemaAB.properties.map (fun p =>
        encodeField (flatten_record [("a", Value.int 1), ("b", Value.int 2)] schemaAB 0) p.1)) :=
  line_depends_only_on_flat_lookup schemaAB 0
    [("a", Value.int 1), ("b", Value.int 2)] [("b", Value.int 2), ("a", Value.int 1)]
    (by
      intro c
      by_cases h1 : c = "a"
      · subst h1; rfl
      · by_cases h2 : c = "b"
        · subst h2; rfl
        · have e1 : (c == "a") = false := beq_eq_false_iff_ne.mpr h1
          have e2 : (c == "b") = false := beq_eq_false_iff_ne.mpr h2
          simp [flatten_record, flattenItem, List.lookup, e1, e2])

/-- C7: every filename produced by one `get_batches` call is exactly
`{prefix}{tap_name}--{stream_name}-{sync run id}-{i}.csv.gz` with the
same run token in every chunk and `i` counting chunks from 1. -/
theorem get_batches_filename_format (b : CSVBatcher) (sync_uuid : String)
    (geturl : String → String) (records : List Record) (i : Nat)
    (h : i < (get_batches b sync_uuid geturl records).length) :
    ((get_batches b sync_uuid geturl records).get ⟨i, h⟩).filename =
      b.storage_prefix_.getD "" ++ b.tap_name ++ "--" ++ b.stream_name ++ "-" ++
        sync_uuid ++ "-" ++ toString (i + 1) ++ ".csv.gz" := by
  simp only [List.get_eq_getElem, get_batches] at h ⊢
  rw [List.getElem_map, List.getElem_enum]
  simp [String.append_assoc]

/-- C7 witness: with prefix unset, tap `tap`, stream `stream`, run
token `U` and three records at batch size 2, the first chunk's file is
`tap--stream-U-1.csv.gz`. -/
theorem get_batches_filename_format_witness :
    ((get_batches exampleBatcher "U" idUrl recs3).get ⟨0, by
        simp [get_batches, lazy_chunked_generator, exampleBatcher, recs3]⟩).filename =
      exampleBatcher.storage_prefix_.getD "" ++ exampleBatcher.tap_name ++ "--" ++
        exampleBatcher.stream_name ++ "-" ++ "U" ++ "-" ++ toString (0 + 1) ++ ".csv.gz" :=
  get_batches_filename_format exampleBatcher "U" idUrl recs3 0 (by
    simp [get_batches, lazy_chunked_generator, exampleBatcher, recs3])

/-- C8: on every exit path of writing one chunk — normal completion or
an error raised while producing a line — the trace closes the gzip
writer, then the file handle, then the filesystem scope, all before the
outcome propagates; the `getUrl` event occurs only on success, after
both inner closes; and a successful result is exactly the collaborator's
URL for the chunk's filename. -/
theorem write_one_chunk_scoped_close (filename : String) (geturl : String → String)
    (enc : Record → Except String String) (chunk : List Record) :
    ∃ ws : List String,
      (write_one_chunk filename geturl enc chunk).1 =
        Ev.openFS :: Ev.openFile filename :: Ev.openGz :: (ws.map Ev.writeGz ++
          Ev.closeGz :: Ev.closeFile ::
            ((match (write_one_chunk filename geturl enc chunk).2 with
              | Except.ok _ => [Ev.getUrl filename]
              | Except.error _ => ([] : List Ev)) ++ [Ev.closeFS])) ∧
      (∀ u, (write_one_chunk filename geturl enc chunk).2 = Except.ok u →
        u = geturl filename) := by
  obtain ⟨ws, hws⟩ := writeLines_shape enc chunk
  refine ⟨ws, ?_, ?_⟩
  · cases hr : (writeLines enc chunk).2 with
    | ok u =>
        simp [write_one_chunk, withEv, andThen, hws, hr]
    | error e =>
        simp [write_one_chunk, withEv, andThen, hws, hr]
  · intro u hu
    cases hr : (writeLines enc chunk).2 with
    | ok v =>
        simp [write_one_chunk, withEv, andThen, hr] at hu
        exact hu.symm
    | error e =>
        simp [write_one_chunk, withEv, andThen, hr] at hu

/-- C8 witness: writing the three-record chunk to `f.csv.gz` with the
never-failing line producer exhibits the closed trace shape, inner
closes before `getUrl` and `closeFS`. -/
theorem write_one_chunk_scoped_close_witness :
    ∃ ws : List String,
      (write_one_chunk "f.csv.gz" idUrl encOk recs3).1 =
        Ev.openFS :: Ev.openFile "f.csv.gz" :: Ev.openGz :: (ws.map Ev.writeGz ++
          Ev.closeGz :: Ev.closeFile ::
            ((match (write_one_chunk "f.csv.gz" idUrl encOk recs3).2 with
              | Except.ok _ => [Ev.getUrl "f.csv.gz"]
              | Except.error _ => ([] : List Ev)) ++ [Ev.closeFS])) ∧
      (∀ u, (write_one_chunk "f.csv.gz" idUrl encOk recs3).2 = Except.ok u →
        u = idUrl "f.csv.gz") :=
  write_one_chunk_scoped_close "f.csv.gz" idUrl encOk recs3

/-- C9 (amended): `get_batches` performs no batch-size validation and
the code defines no configuration error; with the invalid batch size 0
the greedy chunker yields no chunks, so `get_batches` silently yields
zero manifests instead of failing fast. -/
theorem batch_size_zero_yields_nothing (b : CSVBatcher) (sync_uuid : String)
    (geturl : String → String) (records : List Record) (h : b.batch_size = 0) :
    manifests b sync_uuid geturl records = [] ∧
    get_batches b sync_uuid geturl records = [] := by
  constructor <;> simp [manifests, get_batches, h, lazy_chunked_generator]

/-- C9 witness: the batcher configured with batch size 0 yields no
manifests on a nonempty stream. -/
theorem batch_size_zero_yields_nothing_witness :
    manifests zeroBatcher "U" idUrl recs3 = [] ∧
    get_batches zeroBatcher "U" idUrl recs3 = [] :=
  batch_size_zero_yields_nothing zeroBatcher "U" idUrl recs3 rfl

/-- C9 counterexample: with batch size 0 — not a positive integer — and
a nonempty record stream, `get_batches` does not fail with a
configuration error: it runs to completion and returns normally,
producing zero manifests (and silently writing none of the records). -/
theorem invalid_batch_size_not_rejected :
    get_batches ⟨"tap2", "s2", 0, some "p/", schemaAB, 0⟩ "V" idUrl recs3 = [] ∧
    recs3 ≠ [] := by
  constructor
  · simp [get_batches, lazy_chunked_generator]
  · simp [recs3]

/-- C10: the presence test `value == 0 or value` accepts a present
boolean `False` because Python's `False == 0` is true, so a boolean
column is always encoded as the non-empty token `false` or `true`,
never as an empty field. -/
theorem bool_encodes_nonempty (r : Record) (schema : Schema) (lvl : Nat) (c : String)
    (b : Bool) (hf : (flatten_record r schema lvl).lookup c = some (Value.bool b)) :
    (pyEqZero (Value.bool b) || pyTruthy (Value.bool b)) = true ∧
    encodeField (flatten_record r schema lvl) c = (if b then "true" else "false") ∧
    encodeField (flatten_record r schema lvl) c ≠ "" := by
  refine ⟨by cases b <;> simp [pyEqZero, pyTruthy], ?_, ?_⟩
  · unfold encodeField
    rw [hf]
    cases b <;> simp [pyEqZero, pyTruthy, jsonDumps]
  · unfold encodeField
    rw [hf]
    cases b <;> simp [pyEqZero, pyTruthy, jsonDumps]

/-- C10 witness: a record with `a ↦ False` over the one-column schema
passes the presence test and encodes to the token `false`. -/
theorem bool_encodes_nonempty_witness :
    (pyEqZero (Value.bool false) || pyTruthy (Value.bool false)) = true ∧
    encodeField (flatten_record [("a", Value.bool false)] schemaA 0) "a" =
      (if false then "true" else "false") ∧
    encodeField (flatten_record [("a", Value.bool false)] schemaA 0) "a" ≠ "" :=
  bool_encodes_nonempty [("a", Value.bool false)] schemaA 0 "a" false rfl

end TargetSnowflake
